import Mathlib

/-!
Shallow embedding of the QuizTronic buzzer firmware
(src/Buzzer/Firmware/src), with theorems about the audio tick core
(audio.c), the wifi retry logic (wifi.c), the host protocol client
(host.c, gpio.c), the device state machine (state.c) and the
orchestration loop (main.c).  Definitions come first, theorems follow.
-/

/-- State of the audio module from src/audio.c: the two request flags
`_audio_start` and `_audio_stop`, and the playback counter
`_audio_count` (an `int` that the code keeps nonnegative, so `Nat`). -/
structure AudioState where
  start : Bool
  stop : Bool
  count : Nat
deriving DecidableEq, Repr

/-- Initial state written by `audio_init` in src/audio.c. -/
def audio_init : AudioState := ⟨false, false, 0⟩

/-- `audio_start` from src/audio.c: just sets the start flag. -/
def audio_start (s : AudioState) : AudioState := { s with start := true }

/-- `audio_stop` from src/audio.c: just sets the stop flag. -/
def audio_stop (s : AudioState) : AudioState := { s with stop := true }

/-- First block of `audio_tick` in src/audio.c: consume a pending start
request, setting the counter to 1000 only when it is currently 0
("Don't restart the audio if it's already playing, but do consume the
start signal").  The code checks this block before the stop block. -/
def audio_tick_start_phase (s : AudioState) : AudioState :=
  if s.start then
    { s with start := false, count := if s.count = 0 then 1000 else s.count }
  else s

/-- Second block of `audio_tick`: consume a pending stop by forcing the
counter to 1 ("1 causes us to turn off the transducer and then stop
playback"). -/
def audio_tick_stop_phase (s : AudioState) : AudioState :=
  if s.stop then { s with stop := false, count := 1 } else s

/-- One invocation of the 1 ms interrupt handler `audio_tick` from
src/audio.c: the two signal-consuming blocks followed by the playback
block.  Returns the new state paired with the level written to the
buzzer pin by `gpio_set_level(PIN_BUZZER, _audio_count & 1)`, or `none`
when that call is not reached. -/
def audio_tick (s : AudioState) : AudioState × Option Nat :=
  let s2 : AudioState := audio_tick_stop_phase (audio_tick_start_phase s)
  if 0 < s2.count then
    ({ s2 with count := s2.count - 1 }, some ((s2.count - 1) &&& 1))
  else
    (s2, none)

/-- An operation on the audio module that some execution context may
perform: a start request, a stop request, or one interrupt tick. -/
inductive AudioOp where
  | reqStart : AudioOp
  | reqStop : AudioOp
  | tick : AudioOp
deriving DecidableEq, Repr

/-- Apply one audio operation to a state (ticks discard the pin write). -/
def audioApply (s : AudioState) : AudioOp → AudioState
  | AudioOp.reqStart => audio_start s
  | AudioOp.reqStop => audio_stop s
  | AudioOp.tick => (audio_tick s).1

/-- Run a sequence of audio operations from the `audio_init` state. -/
def audioRun (ops : List AudioOp) : AudioState :=
  ops.foldl audioApply audio_init

/-- Events delivered to `event_handler` in src/wifi.c:
`WIFI_EVENT_STA_START`, `WIFI_EVENT_STA_DISCONNECTED` and
`IP_EVENT_STA_GOT_IP`. -/
inductive WifiEvent where
  | staStart : WifiEvent
  | staDisconnected : WifiEvent
  | gotIp : WifiEvent
deriving DecidableEq, Repr

/-- The two event-group bits of src/wifi.c: `WIFI_CONNECTED` and
`WIFI_FAILED`. -/
inductive WifiSignal where
  | connected : WifiSignal
  | failed : WifiSignal
deriving DecidableEq, Repr

/-- `WIFI_MAX_RETRIES` from src/wifi.c. -/
def WIFI_MAX_RETRIES : Nat := 6

/-- Result of one `event_handler` call in src/wifi.c: the new value of
`_wifi_connect_retries`, whether `esp_wifi_connect` was called (a new
association attempt), and the event-group bit set, if any. -/
structure WifiHandlerResult where
  retries : Nat
  reconnect : Bool
  signal : Option WifiSignal
deriving DecidableEq, Repr

/-- `event_handler` from src/wifi.c.  On STA start it zeroes the retry
counter and attempts a connection; on a disconnect it signals FAILED
when the retry counter has reached `WIFI_MAX_RETRIES`, otherwise
increments it and retries immediately; on address acquisition it
signals CONNECTED. -/
def event_handler (retries : Nat) : WifiEvent → WifiHandlerResult
  | WifiEvent.staStart => ⟨0, true, none⟩
  | WifiEvent.staDisconnected =>
      if WIFI_MAX_RETRIES ≤ retries then ⟨retries, false, some WifiSignal.failed⟩
      else ⟨retries + 1, true, none⟩
  | WifiEvent.gotIp => ⟨retries, false, some WifiSignal.connected⟩

/-- The `xEventGroupWaitBits` wait inside `wifi_connect`: process events
in order until the handler sets a bit; also count how many association
attempts (`esp_wifi_connect` calls) were made.  Returns the first bit
set, if any, and the attempt count. -/
def wifiWait : Nat → Nat → List WifiEvent → Option WifiSignal × Nat
  | _, attempts, [] => (none, attempts)
  | retries, attempts, e :: rest =>
    let r := event_handler retries e
    let attempts2 := if r.reconnect then attempts + 1 else attempts
    match r.signal with
    | some sig => (some sig, attempts2)
    | none => wifiWait r.retries attempts2 rest

/-- `wifi_connect` from src/wifi.c, as a function of the event sequence
the SDK delivers: it blocks until one signal bit is set and returns
false exactly when that bit is FAILED.  `none` models the call still
blocked (no signal was ever produced). -/
def wifi_connect (events : List WifiEvent) : Option Bool :=
  match (wifiWait 0 0 events).1 with
  | some WifiSignal.failed => some false
  | some WifiSignal.connected => some true
  | none => none

/-- Message byte `MSG_VERSION` from src/host.c. -/
def MSG_VERSION : Nat := 0x04

/-- Message byte `MSG_MODE_PREFIX` from src/host.c (named BASE here). -/
def MSG_MODE_BASE : Nat := 0x20

/-- Mask `MSG_MODE_MASK` from src/host.c. -/
def MSG_MODE_MASK : Nat := 0xFC

/-- Bit `MSG_MODE_LED` from src/host.c. -/
def MSG_MODE_LED : Nat := 0x01

/-- Bit `MSG_MODE_AUDIO` from src/host.c. -/
def MSG_MODE_AUDIO : Nat := 0x02

/-- Message byte `MSG_PRESS` from src/host.c. -/
def MSG_PRESS : Nat := 0x30

/-- Message byte `MSG_HEARTBEAT` from src/host.c. -/
def MSG_HEARTBEAT : Nat := 0x31

/-- Message byte `MSG_ERR_BAD_MSG` from src/host.c. -/
def MSG_ERR_BAD_MSG : Nat := 0x7F

/-- Message byte `MSG_ID_PREFIX` from src/host.c (named BASE here). -/
def MSG_ID_BASE : Nat := 0x80

/-- `read_module_id` from src/gpio.c, as a function of the levels read
on the `ID_SIZE = 7` id pins, in pin order: a big-endian shift-and-or
accumulation into a `uint8_t` (hence the mod 256). -/
def read_module_id (levels : List Nat) : Nat :=
  levels.foldl (fun id pin => ((id <<< 1) ||| pin) % 256) 0

/-- The ID announce byte sent by `host_connect` in src/host.c:
`MSG_ID_PREFIX | id` with `id = read_module_id()`. -/
def host_id_announce (levels : List Nat) : Nat :=
  MSG_ID_BASE ||| read_module_id levels

/-- One iteration's external inputs for the receive loop
`host_process_messages` in src/host.c: the outcome of the `recv` call
(`some b` when it stored byte `b` into `msg`; `none` on a read error or
peer close, which leaves `msg` untouched since the return value is not
inspected), and the outcome the error-reply `host_send` would have. -/
structure HostIter where
  rcv : Option Nat
  sendOk : Bool
deriving DecidableEq, Repr

/-- Body of the while loop of `host_process_messages`: update `msg`
from the recv outcome; a mode byte (`(msg & MSG_MODE_MASK) ==
MSG_MODE_PREFIX`) is decoded and passed to `state_enable`, leaving the
socket alone; any other byte triggers the error reply, and a failed
send clears `_host_socket` (models the body of `host_send`).  Returns
(socket still valid, new msg). -/
def hpmStep (msg : Nat) (it : HostIter) : Bool × Nat :=
  let msg2 :=
    match it.rcv with
    | some b => b
    | none => msg
  if msg2 &&& MSG_MODE_MASK = MSG_MODE_BASE then (true, msg2)
  else (it.sendOk, msg2)

/-- `host_process_messages` from src/host.c over a finite schedule of
iteration inputs: loop while `_host_socket != 0`, executing `hpmStep`.
Returns the final socket validity, the final `msg` value, and how many
loop iterations executed. -/
def host_process_messages : Bool → Nat → List HostIter → Bool × Nat × Nat
  | sock, msg, [] => (sock, msg, 0)
  | sock, msg, it :: rest =>
    if sock then
      let r := hpmStep msg it
      let k := host_process_messages r.1 r.2 rest
      (k.1, k.2.1, k.2.2 + 1)
    else (sock, msg, 0)

/-- State of the device state machine in src/state.c (the globals
`_connected`, `_led_on`, `_status_flashing`), the button LED output
level, and the audio module state it drives through `audio_start` and
`audio_stop`. -/
structure DeviceState where
  connected : Bool
  led_on : Bool
  status_flashing : Bool
  pin_led_button : Nat
  audio : AudioState
deriving DecidableEq, Repr

/-- `state_connect` from src/state.c. -/
def state_connect (s : DeviceState) : DeviceState :=
  { s with connected := false, led_on := false, status_flashing := true,
           pin_led_button := 0, audio := audio_stop s.audio }

/-- `state_connected` from src/state.c. -/
def state_connected (s : DeviceState) : DeviceState :=
  { s with connected := true, led_on := false, status_flashing := false,
           pin_led_button := 0, audio := audio_stop s.audio }

/-- `state_enable` from src/state.c: drive the button LED, request
audio start or stop, disable status flashing.  `_connected` is not
touched. -/
def state_enable (led audioOn : Bool) (s : DeviceState) : DeviceState :=
  { s with led_on := led,
           pin_led_button := if led then 1 else 0,
           audio := if audioOn then audio_start s.audio else audio_stop s.audio,
           status_flashing := false }

/-- `check_button` from src/state.c, as a function of the previous
`_button_pressed` value, `_connected`, and the raw pin level (the
button is active low).  Returns the new `_button_pressed`, whether
`host_send_press` was called, and the PCB debug LED level. -/
def check_button (pressedPrev conn : Bool) (pin : Nat) : Bool × Bool × Nat :=
  let new_state : Bool := pin == 0
  (new_state, new_state && !pressedPrev && conn, if new_state then 1 else 0)

/-- Fold `check_button` over a sequence of sampled pin levels with a
fixed `_connected` value, counting the press events sent to the host. -/
def countPresses : Bool → Bool → List Nat → Nat
  | _, _, [] => 0
  | conn, prev, pin :: rest =>
    let r := check_button prev conn pin
    (if r.2.1 then 1 else 0) + countPresses conn r.1 rest

/-- `run` from src/main.c, as a function of the outcomes of
`wifi_connect` and `host_connect` and of the device state it threads
through `state_connect` and `state_connected`.  `host_process_messages`
only returns once communication is lost, after which `run` returns
true; a false from either connect step returns false at once. -/
def run (wifiOk hostOk : Bool) (s : DeviceState) : Bool × DeviceState :=
  let s1 := state_connect s
  if !wifiOk then (false, s1)
  else if !hostOk then (false, s1)
  else (true, state_connected s1)

/-- Delay taken by one main-loop iteration in `app_main` (src/main.c):
`vTaskDelay(2000 / portTICK_PERIOD_MS)` exactly when `run` returned
false, otherwise the loop retries at once. -/
def app_main_delay (wifiOk hostOk : Bool) (s : DeviceState) : Nat :=
  if (run wifiOk hostOk s).1 then 0 else 2000

/-- Case characterization of one `audio_tick` call, proved once and
used by the later theorems.  Both request flags are always false
afterwards (each is either consumed or was already clear). -/
theorem audio_tick_eq (st sp : Bool) (c : Nat) :
    audio_tick ⟨st, sp, c⟩ =
      if sp then (⟨false, false, 0⟩, some 0)
      else if st then
        (if c = 0 then (⟨false, false, 999⟩, some 1)
         else (⟨false, false, c - 1⟩, some ((c - 1) % 2)))
      else if 0 < c then (⟨false, false, c - 1⟩, some ((c - 1) % 2))
      else (⟨false, false, c⟩, none) := by
  cases st <;> cases sp <;>
    simp [audio_tick, audio_tick_start_phase, audio_tick_stop_phase] <;>
    rcases Nat.eq_zero_or_pos c with hc | hc <;>
    (try simp [hc]) <;> (try simp [Nat.pos_iff_ne_zero.mp hc])

theorem audio_tick_count_le (s : AudioState) (h : s.count ≤ 1000) :
    (audio_tick s).1.count ≤ 1000 := by
  obtain ⟨st, sp, c⟩ := s
  simp only at h
  rw [audio_tick_eq]
  split_ifs <;> simp <;> omega

theorem audioApply_count_le (s : AudioState) (op : AudioOp)
    (h : s.count ≤ 1000) : (audioApply s op).count ≤ 1000 := by
  cases op with
  | reqStart => simpa [audioApply, audio_start] using h
  | reqStop => simpa [audioApply, audio_stop] using h
  | tick => exact audio_tick_count_le s h

theorem audioRun_count_le (ops : List AudioOp) :
    (audioRun ops).count ≤ 1000 := by
  have main : ∀ (l : List AudioOp) (s : AudioState), s.count ≤ 1000 →
      (l.foldl audioApply s).count ≤ 1000 := by
    intro l
    induction l with
    | nil => intro s hs; simpa using hs
    | cons op rest ih =>
      intro s hs
      exact ih (audioApply s op) (audioApply_count_le s op hs)
  exact main ops audio_init (by decide)

theorem audio_tick_write (s : AudioState) (hs : s.count ≤ 1000) (l : Nat)
    (h : (audio_tick s).2 = some l) :
    l = (1000 - (audio_tick s).1.count) % 2 ∧
    ((audio_tick s).1.count = 0 → l = 0) := by
  obtain ⟨st, sp, c⟩ := s
  simp only at hs
  rw [audio_tick_eq] at h ⊢
  split_ifs at h ⊢ <;> simp_all <;> omega

theorem audio_tick_write_of_pos (s : AudioState)
    (h : 0 < (audio_tick s).1.count) : (audio_tick s).2 ≠ none := by
  obtain ⟨st, sp, c⟩ := s
  rw [audio_tick_eq] at h ⊢
  split_ifs at h ⊢ <;> simp_all

/-- Claim C1: for every sequence of requestStart/requestStop calls
interleaved with onTick calls, whenever the next audio_tick writes a
level to the transducer, that level equals
(duration - counter) mod 2 with duration = 1000 for the counter value
at that tick, the level is 0 once the counter has reached 0, and while
the counter is still positive a level is written at every tick. -/
theorem audio_output_level (ops : List AudioOp) :
    (∀ l, (audio_tick (audioRun ops)).2 = some l →
      l = (1000 - (audio_tick (audioRun ops)).1.count) % 2 ∧
      ((audio_tick (audioRun ops)).1.count = 0 → l = 0)) ∧
    (0 < (audio_tick (audioRun ops)).1.count →
      (audio_tick (audioRun ops)).2 ≠ none) :=
  ⟨fun l h => audio_tick_write (audioRun ops) (audioRun_count_le ops) l h,
   fun h => audio_tick_write_of_pos (audioRun ops) h⟩

/-- Witness for C1: after a single start request the next tick writes
level 1 = (1000 - 999) mod 2. -/
theorem audio_output_level_witness :
    1 = (1000 - (audio_tick (audioRun [AudioOp.reqStart])).1.count) % 2 ∧
    ((audio_tick (audioRun [AudioOp.reqStart])).1.count = 0 → 1 = 0) :=
  (audio_output_level [AudioOp.reqStart]).1 1 (by decide)

/-- Counterexample to claim C2 as stated: with the counter at 500 and a
stop pending, the very next audio_tick leaves the counter at 0, not 1,
and already drives the output low — the forced 1 is decremented inside
the same tick, so the output-off and the counter reaching 0 do not wait
for later ticks. -/
theorem audio_stop_forced_one_cex :
    audio_tick ⟨false, true, 500⟩ = (⟨false, false, 0⟩, some 0) ∧
    ¬ (audio_tick ⟨false, true, 500⟩).1.count = 1 := by decide

/-- Claim C2 (amended): for every prior counter value and regardless of
a pending start, a pending stop request is consumed by the next onTick;
the counter is forced to exactly 1 by the stop block before the
playback block, so that same tick decrements it to 0 and drives the
transducer output low.  Start is checked before stop, but stop still
always wins. -/
theorem audio_stop_wins (s : AudioState) (h : s.stop = true) :
    (audio_tick_stop_phase (audio_tick_start_phase s)).count = 1 ∧
    (audio_tick s).1.count = 0 ∧ (audio_tick s).1.stop = false ∧
    (audio_tick s).1.start = false ∧ (audio_tick s).2 = some 0 := by
  obtain ⟨st, sp, c⟩ := s
  simp only at h
  subst h
  rw [audio_tick_eq]
  cases st <;> simp [audio_tick_start_phase, audio_tick_stop_phase]

/-- Witness for C2 (amended), at start also pending and counter 42. -/
theorem audio_stop_wins_witness :
    (audio_tick_stop_phase (audio_tick_start_phase ⟨true, true, 42⟩)).count = 1 ∧
    (audio_tick ⟨true, true, 42⟩).1.count = 0 ∧
    (audio_tick ⟨true, true, 42⟩).1.stop = false ∧
    (audio_tick ⟨true, true, 42⟩).1.start = false ∧
    (audio_tick ⟨true, true, 42⟩).2 = some 0 :=
  audio_stop_wins ⟨true, true, 42⟩ rfl

/-- Claim C3: while the counter is positive and no stop is pending, a
tick with a pending start consumes the start flag but only performs the
normal decrement — it never resets the countdown. -/
theorem audio_start_idempotent (s : AudioState) (hs : s.start = true)
    (hp : s.stop = false) (hc : 0 < s.count) :
    (audio_tick s).1 = ⟨false, false, s.count - 1⟩ ∧
    (audio_tick s).2 = some ((s.count - 1) % 2) := by
  obtain ⟨st, sp, c⟩ := s
  simp only at hs hp hc
  subst hs; subst hp
  rw [audio_tick_eq]
  simp [Nat.pos_iff_ne_zero.mp hc]

/-- Witness for C3 at counter 7. -/
theorem audio_start_idempotent_witness :
    (audio_tick ⟨true, false, 7⟩).1 = ⟨false, false, 7 - 1⟩ ∧
    (audio_tick ⟨true, false, 7⟩).2 = some ((7 - 1) % 2) :=
  audio_start_idempotent ⟨true, false, 7⟩ rfl rfl (by decide)

/-- Claim C10: when the counter is 0 and neither request flag is set,
audio_tick changes nothing and performs no write to the transducer pin. -/
theorem audio_idle_tick_noop (s : AudioState) (h1 : s.count = 0)
    (h2 : s.start = false) (h3 : s.stop = false) :
    audio_tick s = (s, none) := by
  obtain ⟨st, sp, c⟩ := s
  simp only at h1 h2 h3
  subst h1; subst h2; subst h3
  rw [audio_tick_eq]
  simp

/-- Witness for C10 at the initial state. -/
theorem audio_idle_tick_noop_witness :
    audio_tick audio_init = (audio_init, none) :=
  audio_idle_tick_noop audio_init rfl rfl rfl

/-- Claim C4: from a retry count of 0, seven consecutive association
failures produce FAILED and a false return (the initial attempt plus 6
immediate retries, 7 association attempts in all); six failures leave
the call still waiting; an address acquisition at any point during the
retry sequence instead returns true. -/
theorem wifi_retry_ceiling :
    wifi_connect (WifiEvent.staStart ::
      List.replicate 7 WifiEvent.staDisconnected) = some false ∧
    (wifiWait 0 0 (WifiEvent.staStart ::
      List.replicate 7 WifiEvent.staDisconnected)).2 = 7 ∧
    wifi_connect (WifiEvent.staStart ::
      List.replicate 6 WifiEvent.staDisconnected) = none ∧
    (∀ k, k < 7 → wifi_connect (WifiEvent.staStart ::
      (List.replicate k WifiEvent.staDisconnected ++ [WifiEvent.gotIp]))
        = some true) := by decide

/-- Witness for C4: address acquisition after 3 failed attempts. -/
theorem wifi_retry_ceiling_witness :
    wifi_connect (WifiEvent.staStart ::
      (List.replicate 3 WifiEvent.staDisconnected ++ [WifiEvent.gotIp]))
      = some true :=
  wifi_retry_ceiling.2.2.2 3 (by decide)

/-- Counterexample to claim C5 as stated: with the socket valid and the
stale msg byte 0x23 (a mode byte), a recv failure (peer close) does not
mark the socket invalid and does not end the loop — a second iteration
still executes and the socket is still valid, because the loop never
inspects the result of recv. -/
theorem host_recv_ignored_cex :
    (host_process_messages true 0x23 [⟨none, true⟩]).1 = true ∧
    (host_process_messages true 0x23 [⟨none, true⟩, ⟨none, true⟩]).2.2 = 2 := by
  decide

/-- Claim C5 (amended): the receive loop reads one byte at a time, but
ignores the outcome of each read; an iteration invalidates the socket
(and thus exits the loop) exactly when the byte in msg is not a mode
byte and the error-reply send fails — a send failure is the only exit,
never the read itself. -/
theorem host_session_exit (msg : Nat) (it : HostIter) :
    ((hpmStep msg it).1 = false → it.sendOk = false) ∧
    (it.sendOk = true → (hpmStep msg it).1 = true) := by
  obtain ⟨rcv, so⟩ := it
  cases rcv <;> simp [hpmStep] <;> split_ifs <;> simp_all

/-- Witness for C5 (amended): a read failure with a successful
error-reply send leaves the socket valid. -/
theorem host_session_exit_witness :
    (hpmStep 0 ⟨none, true⟩).1 = true :=
  (host_session_exit 0 ⟨none, true⟩).2 rfl

/-- Counterexample to claim C6 as stated: the module id is read from 7
pins, so with the first id pin high the id is 64, the announce byte is
0xC0, its high 2 bits are 3 (not the fixed prefix 0x80 >> 6 = 2) and
its low 6 bits are 0, which is not the ModuleId. -/
theorem host_id_announce_cex :
    (∀ l ∈ ([1, 0, 0, 0, 0, 0, 0] : List Nat), l ≤ 1) ∧
    ([1, 0, 0, 0, 0, 0, 0] : List Nat).length = 7 ∧
    read_module_id [1, 0, 0, 0, 0, 0, 0] = 64 ∧
    host_id_announce [1, 0, 0, 0, 0, 0, 0] = 0xC0 ∧
    ¬ (host_id_announce [1, 0, 0, 0, 0, 0, 0] / 64 = MSG_ID_BASE / 64 ∧
       host_id_announce [1, 0, 0, 0, 0, 0, 0] % 64 =
         read_module_id [1, 0, 0, 0, 0, 0, 0]) := by decide

theorem rmi_fold_lt (levels : List Nat) (h : ∀ l ∈ levels, l ≤ 1) :
    ∀ (acc m : Nat), acc < 2 ^ m →
      levels.foldl (fun id pin => ((id <<< 1) ||| pin) % 256) acc
        < 2 ^ (m + levels.length) := by
  induction levels with
  | nil => intro acc m hacc; simpa using hacc
  | cons p rest ih =>
    intro acc m hacc
    have hp : p ≤ 1 := h p (List.mem_cons_self p rest)
    have hrest : ∀ l ∈ rest, l ≤ 1 := fun l hl => h l (List.mem_cons_of_mem p hl)
    have e1 : acc <<< 1 = 2 * acc := by rw [Nat.shiftLeft_eq]; ring
    have e2 : (2:Nat) ^ (m + 1) = 2 ^ m * 2 := pow_succ 2 m
    have h1 : acc <<< 1 < 2 ^ (m + 1) := by omega
    have h2 : p < 2 ^ (m + 1) :=
      lt_of_le_of_lt hp (Nat.one_lt_two_pow_iff.mpr (by omega))
    have hstep : ((acc <<< 1) ||| p) % 256 < 2 ^ (m + 1) :=
      lt_of_le_of_lt (Nat.mod_le _ _) (Nat.or_lt_two_pow h1 h2)
    have hrec := ih hrest _ _ hstep
    have hexp : m + (rest.length + 1) = (m + 1) + rest.length := by omega
    rw [List.foldl_cons, List.length_cons, hexp]
    exact hrec

theorem read_module_id_lt (levels : List Nat) (h7 : levels.length = 7)
    (hb : ∀ l ∈ levels, l ≤ 1) : read_module_id levels < 128 := by
  have h := rmi_fold_lt levels hb 0 0 (by norm_num)
  rw [h7] at h
  simpa [read_module_id] using h

theorem lor_128_of_lt : ∀ x, x < 128 → 128 ||| x = 128 + x := by decide

/-- Claim C6 (amended): for every session open, the ID announce byte is
MSG_ID_PREFIX (0x80) plus the ModuleId: its high bit is the fixed
prefix and its low 7 bits carry the ModuleId, the big-endian
concatenation of the 7 fixed ID input pins read by read_module_id. -/
theorem host_id_announce_bits (levels : List Nat) (h7 : levels.length = 7)
    (hb : ∀ l ∈ levels, l ≤ 1) :
    host_id_announce levels = 128 + read_module_id levels ∧
    host_id_announce levels / 128 = 1 ∧
    host_id_announce levels % 128 = read_module_id levels := by
  have hlt := read_module_id_lt levels h7 hb
  have he : host_id_announce levels = 128 + read_module_id levels := by
    unfold host_id_announce MSG_ID_BASE
    exact lor_128_of_lt _ hlt
  refine ⟨he, ?_, ?_⟩ <;> rw [he] <;> omega

/-- Witness for C6 (amended) at all id pins high (ModuleId 127). -/
theorem host_id_announce_bits_witness :
    host_id_announce [1, 1, 1, 1, 1, 1, 1]
      = 128 + read_module_id [1, 1, 1, 1, 1, 1, 1] ∧
    host_id_announce [1, 1, 1, 1, 1, 1, 1] / 128 = 1 ∧
    host_id_announce [1, 1, 1, 1, 1, 1, 1] % 128
      = read_module_id [1, 1, 1, 1, 1, 1, 1] :=
  host_id_announce_bits [1, 1, 1, 1, 1, 1, 1] rfl (by decide)

/-- Claim C7: a press event is sent exactly on the transition from
not-pressed to pressed (the pin is active low) and only while
connected: three consecutive pressed samples produce one event,
pressed-released-pressed produces two, no event is ever sent while
disconnected, and in general an event fires iff the pin is low, the
previous sample was not pressed, and the device is connected. -/
theorem check_button_edges :
    countPresses true false [0, 0, 0] = 1 ∧
    countPresses true false [0, 1, 0] = 2 ∧
    (∀ (prev : Bool) (pins : List Nat), countPresses false prev pins = 0) ∧
    (∀ (prev conn : Bool) (pin : Nat),
      (check_button prev conn pin).2.1 = true ↔
        (pin = 0 ∧ prev = false ∧ conn = true)) := by
  refine ⟨by decide, by decide, ?_, ?_⟩
  · intro prev pins
    induction pins generalizing prev with
    | nil => rfl
    | cons p rest ih => simp [countPresses, check_button, ih]
  · intro prev conn pin
    cases prev <;> cases conn <;> simp [check_button]

/-- Witness for C7: a fresh low sample while connected sends a press. -/
theorem check_button_edges_witness :
    (check_button false true 0).2.1 = true :=
  (check_button_edges.2.2.2 false true 0).mpr ⟨rfl, rfl, rfl⟩

/-- Claim C8: from any connected state, state_enable(true, true)
followed immediately by state_enable(false, false) leaves the button
LED off, the led flag clear, the connected flag still true, and the
very next audio tick stops playback (counter 0, output driven low);
moreover state_enable never modifies the connected flag. -/
theorem state_enable_frame (s : DeviceState) (h : s.connected = true) :
    (state_enable false false (state_enable true true s)).pin_led_button = 0 ∧
    (state_enable false false (state_enable true true s)).led_on = false ∧
    (state_enable false false (state_enable true true s)).connected = true ∧
    (audio_tick (state_enable false false (state_enable true true s)).audio).1.count = 0 ∧
    (audio_tick (state_enable false false (state_enable true true s)).audio).2 = some 0 ∧
    (∀ (l a : Bool) (t : DeviceState), (state_enable l a t).connected = t.connected) := by
  have haudio : (state_enable false false (state_enable true true s)).audio
      = ⟨true, true, s.audio.count⟩ := by
    obtain ⟨cn, lo, sf, pb, ⟨ast, asp, ac⟩⟩ := s
    simp [state_enable, audio_start, audio_stop]
  refine ⟨by simp [state_enable], by simp [state_enable],
    by simp [state_enable, h], ?_, ?_,
    fun l a t => by simp [state_enable]⟩
  · rw [haudio, audio_tick_eq]; simp
  · rw [haudio, audio_tick_eq]; simp

/-- Witness for C8 from a concrete connected state. -/
theorem state_enable_frame_witness :
    (state_enable false false (state_enable true true
      ⟨true, false, false, 0, ⟨false, false, 0⟩⟩)).pin_led_button = 0 ∧
    (state_enable false false (state_enable true true
      ⟨true, false, false, 0, ⟨false, false, 0⟩⟩)).led_on = false ∧
    (state_enable false false (state_enable true true
      ⟨true, false, false, 0, ⟨false, false, 0⟩⟩)).connected = true ∧
    (audio_tick (state_enable false false (state_enable true true
      ⟨true, false, false, 0, ⟨false, false, 0⟩⟩)).audio).1.count = 0 ∧
    (audio_tick (state_enable false false (state_enable true true
      ⟨true, false, false, 0, ⟨false, false, 0⟩⟩)).audio).2 = some 0 ∧
    (∀ (l a : Bool) (t : DeviceState), (state_enable l a t).connected = t.connected) :=
  state_enable_frame ⟨true, false, false, 0, ⟨false, false, 0⟩⟩ rfl

/-- Claim C9: one main-loop iteration sleeps the fixed 2000 ms delay
exactly when the connect pipeline failed (wifi association or host
connect), i.e. no session was established; when run returns true — a
session was established and host_process_messages later returned
because communication was lost — the loop retries with no delay. -/
theorem run_retry_delay (wifiOk hostOk : Bool) (s : DeviceState) :
    (app_main_delay wifiOk hostOk s = 2000 ↔ ¬ (wifiOk = true ∧ hostOk = true)) ∧
    ((run wifiOk hostOk s).1 = true → app_main_delay wifiOk hostOk s = 0) ∧
    ((run wifiOk hostOk s).1 = true ↔ wifiOk = true ∧ hostOk = true) := by
  cases wifiOk <;> cases hostOk <;> simp [app_main_delay, run]

/-- Witness for C9: with both connect steps succeeding there is no
delay. -/
theorem run_retry_delay_witness :
    app_main_delay true true ⟨false, false, true, 0, ⟨false, false, 0⟩⟩ = 0 :=
  (run_retry_delay true true ⟨false, false, true, 0, ⟨false, false, 0⟩⟩).2.1 rfl
